import Mathlib

/-!
Verification development for the Alfa Pilot backend (Backend/app of the
repository).  The Python source is shallowly embedded: pure functions become
Lean functions, stateful code becomes explicit state passing, fallible code
returns `Except`/`Option`.  Machine details that the claims do not touch are
noted at every definition that abstracts them.
-/

namespace AlfaPilot

/-! ## Sandboxed script language

`RestrictedPythonExecutor.execute` (services/ai/tools.py) runs a script with
`exec(code, globals := a dict holding only `__builtins__ := SAFE_BUILTINS`,
locals := dict(request.variables))`.  The script text is modelled in parsed
form: `Stmt`/`Expr` cover the constructs the claims exercise (assignment,
expression statements, `import`, bare `assert`, name lookup, attribute
access, single-argument calls and arithmetic).  `textwrap.dedent` is a
source-text preprocessing step abstracted by working on parsed scripts. -/

inductive Expr where
  | intLit (n : Int)
  | strLit (s : String)
  | boolLit (b : Bool)
  | name (x : String)
  | attr (e : Expr) (field : String)
  | call1 (f : Expr) (arg : Expr)
  | binAdd (a b : Expr)
  | binSub (a b : Expr)
  | binMul (a b : Expr)
  deriving Repr

inductive Stmt where
  | assign (x : String) (e : Expr)
  | exprStmt (e : Expr)
  | importStmt (m : String)
  | assertStmt (e : Expr)
  | raiseStmt (msg : String)
  deriving Repr

/-- Python runtime values, as they appear in the executor namespace and in
JSON payloads of the store.  JSON strings that hold Python source are carried
in parsed form by the `code` constructor.  Numbers are modelled as integers
(no claim depends on float behaviour). -/
inductive PyVal where
  | none
  | bool (b : Bool)
  | int (n : Int)
  | str (s : String)
  | list (items : List PyVal)
  | dict (entries : List (String × PyVal))
  | builtin (f : String)
  | code (body : List Stmt)
  deriving Repr

/-- Association-list lookup, the model of Python `d.get(k)` /
`_memory_json.get(key)`. -/
def alookup {α : Type} : List (String × α) → String → Option α
  | [], _ => Option.none
  | (k, v) :: rest, key => if k = key then some v else alookup rest key

/-- Association-list update, the model of Python `d[k] = v`. -/
def aset {α : Type} : List (String × α) → String → α → List (String × α)
  | [], k, v => [(k, v)]
  | (k0, v0) :: rest, k, v =>
    if k0 = k then (k, v) :: rest else (k0, v0) :: aset rest k v

/-- Association-list removal, the model of Python `d.pop(k, default)` and
`del d[k]`: a dict has at most one binding per key, so removal drops every
binding of `k`. -/
def aremove {α : Type} : List (String × α) → String → List (String × α)
  | [], _ => []
  | (k0, v0) :: rest, k =>
    if k0 = k then aremove rest k else (k0, v0) :: aremove rest k

/-- Python truthiness (`if not data`, `assert e`):
`None`, `False`, `0`, `""` and empty containers are falsy. -/
def pyFalsy : PyVal → Bool
  | .none => true
  | .bool b => !b
  | .int n => n = 0
  | .str s => s = ""
  | .list items => items.isEmpty
  | .dict entries => entries.isEmpty
  | .builtin _ => false
  | .code body => body.isEmpty

/-- The namespace seeded into every `exec` call as `__builtins__`
(the `SAFE_BUILTINS` class attribute in tools.py, keys of the dict). -/
def SAFE_BUILTINS : List String :=
  ["abs", "min", "max", "sum", "len", "range", "enumerate", "round", "sorted"]

/-- Python `str(v)` / `repr` of elements inside containers, for the
`result = ...` line the executor appends to the captured output.  Strings
use `str` at top level and `repr` inside containers, as in CPython. -/
def pyRepr : PyVal → String
  | .none => "None"
  | .bool b => if b then "True" else "False"
  | .int n => toString n
  | .str s => "'" ++ s ++ "'"
  | .list items =>
    "[" ++ String.intercalate ", " (items.attach.map fun x => pyRepr x.1) ++ "]"
  | .dict entries =>
    "\x7b" ++ String.intercalate ", "
      (entries.attach.map fun x => "'" ++ x.1.1 ++ "': " ++ pyRepr x.1.2) ++
      "\x7d"
  | .builtin f => "<built-in function " ++ f ++ ">"
  | .code _ => "<code string>"
  termination_by v => sizeOf v
  decreasing_by
  · have := List.sizeOf_lt_of_mem x.2
    simp_all
    omega
  · have h := List.sizeOf_lt_of_mem x.2
    obtain ⟨⟨k, v⟩, hm⟩ := x
    simp_all
    omega

def pyStr : PyVal → String
  | .str s => s
  | v => pyRepr v

/-- Exceptions are carried as their `str(exc)` rendering, which is all that
`RestrictedPythonExecutor.execute` retains of them. -/
abbrev PyExc := String

/-- Python `str.strip()` whitespace class. -/
def isPySpace (c : Char) : Bool :=
  c = ' ' || c = '\t' || c = '\n' || c = '\r' || c = '\x0b' || c = '\x0c'

/-- Python `s.strip()`: drop whitespace from both ends. -/
def pyStrip (s : String) : String :=
  ⟨((s.data.dropWhile isPySpace).reverse.dropWhile isPySpace).reverse⟩

/-- The value the globals dict binds to the key `__builtins__`: the
`SAFE_BUILTINS` dict itself, each entry holding one allow-listed builtin. -/
def builtinsDictVal : PyVal :=
  .dict (SAFE_BUILTINS.map (fun f => (f, .builtin f)))

/-- Name resolution inside the sandbox, following CPython `LOAD_NAME` over
`exec(code, {"__builtins__": SAFE_BUILTINS}, locals)`: the locals (the
caller-supplied variables) first, then the globals dict — whose only key is
`__builtins__`, so that very name resolves to the allow-list dict — then the
builtins, i.e. the `SAFE_BUILTINS` keys; anything else raises
`NameError`. -/
def lookupName (ns : List (String × PyVal)) (x : String) : Except PyExc PyVal :=
  match alookup ns x with
  | some v => .ok v
  | Option.none =>
    if x = "__builtins__" then .ok builtinsDictVal
    else if x ∈ SAFE_BUILTINS then .ok (.builtin x)
    else .error ("name '" ++ x ++ "' is not defined")

/-- Attribute access.  The sandbox does not intercept attribute access at
all; the model covers the introspection attribute the claims exercise
(`f.__name__` of a builtin, which CPython resolves to the function name) and
raises `AttributeError` elsewhere. -/
def getattrModel (v : PyVal) (field : String) : Except PyExc PyVal :=
  match v, field with
  | .builtin f, "__name__" => .ok (.str f)
  | _, _ => .error ("attribute '" ++ field ++ "' is not modelled")

def sortInts : List Int → List Int :=
  fun l => l.mergeSort (fun a b => a ≤ b)

def asInts : List PyVal → Option (List Int)
  | [] => some []
  | .int n :: rest => (asInts rest).map (n :: ·)
  | _ => Option.none

/-- Application of one allow-listed builtin to one argument, following the
CPython behaviour on the shapes the claims use; other shapes raise
`TypeError`-style messages. -/
def applyBuiltin (f : String) (v : PyVal) : Except PyExc PyVal :=
  match f, v with
  | "abs", .int n => .ok (.int |n|)
  | "len", .str s => .ok (.int s.length)
  | "len", .list items => .ok (.int items.length)
  | "len", .dict entries => .ok (.int entries.length)
  | "range", .int n => .ok (.list ((List.range n.toNat).map fun i => .int i))
  | "round", .int n => .ok (.int n)
  | "sum", .list items =>
    match asInts items with
    | some ns => .ok (.int (ns.foldl (· + ·) 0))
    | Option.none => .error "unsupported operand type(s) for +"
  | "min", .list items =>
    match asInts items with
    | some [] => .error "min() arg is an empty sequence"
    | some (n :: ns) => .ok (.int (ns.foldl Min.min n))
    | Option.none => .error "'<' not supported between instances"
  | "max", .list items =>
    match asInts items with
    | some [] => .error "max() arg is an empty sequence"
    | some (n :: ns) => .ok (.int (ns.foldl Max.max n))
    | Option.none => .error "'<' not supported between instances"
  | "sorted", .list items =>
    match asInts items with
    | some ns => .ok (.list ((sortInts ns).map PyVal.int))
    | Option.none => .error "'<' not supported between instances"
  | "enumerate", .list items =>
    .ok (.list (items.enum.map fun p => .list [.int p.1, p.2]))
  | _, _ => .error ("bad operand type for " ++ f ++ "()")

/-- Expression evaluation in the sandbox namespace. -/
def evalExpr (ns : List (String × PyVal)) : Expr → Except PyExc PyVal
  | .intLit n => .ok (.int n)
  | .strLit s => .ok (.str s)
  | .boolLit b => .ok (.bool b)
  | .name x => lookupName ns x
  | .attr e field => do getattrModel (← evalExpr ns e) field
  | .call1 f arg => do
    match ← evalExpr ns f with
    | .builtin g => applyBuiltin g (← evalExpr ns arg)
    | _ => .error "object is not callable"
  | .binAdd a b => do
    match ← evalExpr ns a, ← evalExpr ns b with
    | .int x, .int y => .ok (.int (x + y))
    | .str x, .str y => .ok (.str (x ++ y))
    | .list x, .list y => .ok (.list (x ++ y))
    | _, _ => .error "unsupported operand type(s) for +"
  | .binSub a b => do
    match ← evalExpr ns a, ← evalExpr ns b with
    | .int x, .int y => .ok (.int (x - y))
    | _, _ => .error "unsupported operand type(s) for -"
  | .binMul a b => do
    match ← evalExpr ns a, ← evalExpr ns b with
    | .int x, .int y => .ok (.int (x * y))
    | _, _ => .error "unsupported operand type(s) for *"

/-- Sequential statement execution over the mutable locals namespace.
A raised exception aborts the script; `import m` raises
`ImportError("__import__ not found")` because `SAFE_BUILTINS` has no
`__import__` hook; a failed bare `assert` raises `AssertionError()` whose
`str` is the empty string. -/
def runStmts : List Stmt → List (String × PyVal) →
    Except PyExc (List (String × PyVal))
  | [], ns => .ok ns
  | .assign x e :: rest, ns => do runStmts rest (aset ns x (← evalExpr ns e))
  | .exprStmt e :: rest, ns => do
    _ ← evalExpr ns e
    runStmts rest ns
  | .importStmt _ :: _, _ => .error "__import__ not found"
  | .assertStmt e :: rest, ns => do
    if pyFalsy (← evalExpr ns e) then .error "" else runStmts rest ns
  | .raiseStmt msg :: _, _ => .error msg

/-! ## Tool execution (services/ai/tools.py)

`ToolExecutionRequest` / `ToolExecutionResult` mirror schemas/chat.py.
The request's `code` string is carried in parsed form. -/

structure ToolExecutionRequest where
  name : String
  code : List Stmt
  variables' : List (String × PyVal)
  rationale : Option String := Option.none
  deriving Repr

structure ToolExecutionResult where
  name : String
  output : String
  success : Bool := true
  error : Option String := Option.none
  duration_ms : Option Nat := Option.none
  deriving Repr

/-- What one `exec(...)` call under `contextlib.redirect_stdout` did, as seen
by the surrounding `RestrictedPythonExecutor.execute`: the text written to the
captured stdout, the measured wall-clock time in milliseconds (the source
computes `int((time.perf_counter() - start) * 1000)`), and either the final
locals namespace or the `str` of the raised exception. -/
structure ExecOutcome where
  printed : String
  elapsedMs : Nat
  final : Except PyExc (List (String × PyVal))
  deriving Repr

/-- Settings.calculator_timeout_sec (config.py line 50), default 10.
`RestrictedPythonExecutor.__init__` stores it in `self._timeout`. -/
def calculator_timeout_sec : Nat := 10

namespace RestrictedPythonExecutor

/-- Embedding of `RestrictedPythonExecutor.execute`, parameterised by the
outcome of the `exec` call. -/
def execute (req : ToolExecutionRequest) (run : ExecOutcome) :
    ToolExecutionResult :=
  match run.final with
  | .ok ns =>
    let stripped := pyStrip run.printed
    let output_text :=
      match alookup ns "result" with
      | some v => stripped ++ "\nresult = " ++ pyStr v
      | Option.none => stripped
    { name := req.name
      output := if output_text = "" then "<no output>" else output_text
      success := true
      error := Option.none
      duration_ms := some run.elapsedMs }
  | .error exc =>
    { name := req.name
      output := pyStrip run.printed
      success := false
      error := some exc
      duration_ms := some run.elapsedMs }

/-- The `exec` outcome that the modelled script semantics produces: nothing
is ever printed because `SAFE_BUILTINS` does not expose `print`, and the
wall-clock reading stays a parameter. -/
def interpOutcome (req : ToolExecutionRequest) (elapsedMs : Nat) :
    ExecOutcome :=
  { printed := "", elapsedMs := elapsedMs
    final := runStmts req.code req.variables' }

/-- Composition of `execute` with the interpreter as the `exec` call. -/
def executeOn (req : ToolExecutionRequest) (elapsedMs : Nat) :
    ToolExecutionResult :=
  execute req (interpOutcome req elapsedMs)

end RestrictedPythonExecutor

namespace ToolRegistry

/-- Embedding of `ToolRegistry.execute`: dispatch by name; an unknown tool
name yields a failure result, not an exception. -/
def execute (req : ToolExecutionRequest) (run : ExecOutcome) :
    ToolExecutionResult :=
  if req.name = "python_code_executor" then
    RestrictedPythonExecutor.execute req run
  else
    { name := req.name, output := "", success := false
      error := some "Unknown tool", duration_ms := some 0 }

end ToolRegistry

/-! ## Glob matching (fnmatch.fnmatch as used by RedisStore.keys)

On POSIX `fnmatch.fnmatch(name, pattern)` case-normalisation is the
identity, so the semantics is the translated-pattern full match:
`*` matches any run, `?` any one character, `[seq]` a character set with
ranges and `!` negation (`]` literal when first); an unterminated `[` is a
literal `[`. -/

/-- One `[...]` set item: a single character or an inclusive range. -/
def classItemMatches (c : Char) : Sum Char (Char × Char) → Bool
  | .inl d => c = d
  | .inr (lo, hi) => lo ≤ c ∧ c ≤ hi

/-- Split a `[...]` body at the closing `]`, or `none` when the set is
unterminated. -/
def splitClass : List Char → Option (List Char × List Char)
  | [] => Option.none
  | c :: rest =>
    if c = ']' then some ([], rest)
    else (splitClass rest).map (fun p => (c :: p.1, p.2))

/-- A set whose first body character is `]` takes it literally. -/
def parseClassStart (l : List Char) : Option (List Char × List Char) :=
  match l with
  | [] => Option.none
  | c :: rest =>
    if c = ']' then (splitClass rest).map (fun p => (']' :: p.1, p.2))
    else splitClass (c :: rest)

/-- Full `[...]` parse after the opening bracket: optional `!` negation,
then the body up to the closing `]`. -/
def parseClass (l : List Char) : Option (Bool × List Char × List Char) :=
  match l with
  | [] => Option.none
  | c :: rest =>
    if c = '!' then (parseClassStart rest).map (fun p => (true, p.1, p.2))
    else (parseClassStart (c :: rest)).map (fun p => (false, p.1, p.2))

/-- Turn the body characters of a set into items, reading `lo-hi` as a
range and a trailing `-` as a literal, as `fnmatch.translate` does. -/
def interpretRanges : List Char → List (Sum Char (Char × Char))
  | [] => []
  | lo :: '-' :: hi :: rest => .inr (lo, hi) :: interpretRanges rest
  | [lo, '-'] => [.inl lo, .inl '-']
  | c :: rest => .inl c :: interpretRanges rest

theorem splitClass_shrinks :
    ∀ (l : List Char) body rest, splitClass l = some (body, rest) →
      rest.length < l.length := by
  intro l
  induction l with
  | nil => intro body rest h; simp [splitClass] at h
  | cons c tail ih =>
    intro body rest h
    rw [splitClass] at h
    by_cases hc : c = ']'
    · rw [if_pos hc] at h
      simp at h
      simp [← h.2]
    · rw [if_neg hc] at h
      cases hsc : splitClass tail with
      | none => rw [hsc] at h; simp at h
      | some p =>
        rw [hsc] at h
        simp at h
        have := ih p.1 p.2 (by rw [hsc])
        simp [← h.2]
        omega

theorem parseClassStart_shrinks :
    ∀ (l : List Char) body rest, parseClassStart l = some (body, rest) →
      rest.length < l.length := by
  intro l body rest h
  cases l with
  | nil => simp [parseClassStart] at h
  | cons c tail =>
    rw [parseClassStart] at h
    by_cases hc : c = ']'
    · rw [if_pos hc] at h
      cases hsc : splitClass tail with
      | none => rw [hsc] at h; simp at h
      | some p =>
        rw [hsc] at h
        simp at h
        have := splitClass_shrinks tail p.1 p.2 (by rw [hsc])
        simp [← h.2]
        omega
    · rw [if_neg hc] at h
      have := splitClass_shrinks (c :: tail) body rest h
      omega

theorem parseClass_shrinks :
    ∀ (l : List Char) neg body rest, parseClass l = some (neg, body, rest) →
      rest.length < l.length := by
  intro l neg body rest h
  cases l with
  | nil => simp [parseClass] at h
  | cons c tail =>
    rw [parseClass] at h
    by_cases hc : c = '!'
    · rw [if_pos hc] at h
      cases hps : parseClassStart tail with
      | none => rw [hps] at h; simp at h
      | some p =>
        rw [hps] at h
        simp at h
        obtain ⟨h1, h2⟩ := h
        subst h2
        have := parseClassStart_shrinks tail body rest hps
        simp only [List.length_cons]
        omega
    · rw [if_neg hc] at h
      cases hps : parseClassStart (c :: tail) with
      | none => rw [hps] at h; simp at h
      | some p =>
        rw [hps] at h
        simp at h
        obtain ⟨h1, h2⟩ := h
        subst h2
        exact parseClassStart_shrinks (c :: tail) body rest hps

/-- Glob matching over character lists (the translated-regex semantics of
`fnmatch.translate`). -/
def globMatch : List Char → List Char → Bool
  | [], [] => true
  | [], _ :: _ => false
  | p :: ps, s =>
    if p = '*' then
      globMatch ps s ||
        match s with
        | [] => false
        | _ :: s1 => globMatch (p :: ps) s1
    else if p = '?' then
      match s with
      | [] => false
      | _ :: s1 => globMatch ps s1
    else if p = '[' then
      match hpc : parseClass ps with
      | Option.none =>
        -- unterminated set: the bracket is a literal character
        (match s with
        | c :: s1 => p = c && globMatch ps s1
        | _ => false)
      | some (negated, body, ps1) =>
        (match s with
        | [] => false
        | c :: s1 =>
          (negated != (interpretRanges body).any (classItemMatches c)) &&
            globMatch ps1 s1)
    else
      match s with
      | [] => false
      | c :: s1 => p = c && globMatch ps s1
  termination_by pat s => (pat.length, s.length)
  decreasing_by
  · exact Prod.Lex.left _ _ (by simp)
  · exact Prod.Lex.right _ (by simp)
  · exact Prod.Lex.left _ _ (by simp)
  · exact Prod.Lex.left _ _ (by simp)
  · exact Prod.Lex.left _ _ (by
      have := parseClass_shrinks _ _ _ _ hpc
      simp
      omega)
  · exact Prod.Lex.left _ _ (by simp)

/-- fnmatch.fnmatch on strings (POSIX: no case folding). -/
def fnmatch (name pattern : String) : Bool :=
  globMatch pattern.data name.data

/-! ## Resilient key-value store (services/storage/redis_store.py)

The module-level `_memory_json` / `_memory_lists` maps are process-wide;
`self._use_memory_only` lives on each `RedisStore` instance (`Handle`).
JSON payloads: the source stores `json.dumps(value)` and parses it back with
`json.loads` on every read; this serialisation round trip is modelled as the
identity on parsed values, so both backends map keys to `PyVal` directly.
The two Redis key namespaces in use (string keys written by `set` and list
keys written by `rpush`) are modelled as two maps; the claims only ever use
disjoint key prefixes (`plan:` versus `dialog:`), so Redis WRONGTYPE
interactions between the two are not modelled.  TTL (`ex=expire`) is honoured
by Redis and informational on the fallback; expiry manifests as absence of
the key, which the model expresses by starting from a state without it. -/

structure Handle where
  use_memory_only : Bool
  deriving Repr, DecidableEq

/-- The fresh instance state built by `RedisStore.__init__` (and hence by
`get_store`, which runs `RedisStore()` on every request). -/
def freshStore : Handle := { use_memory_only := false }

/-- Embedding of `RedisStore._mark_unavailable` (the logging call aside). -/
def mark_unavailable (_h : Handle) : Handle := { use_memory_only := true }

/-- Embedding of `RedisStore._can_use_redis` (the client object is always
constructed, so only the flag matters). -/
def can_use_redis (h : Handle) : Bool := !h.use_memory_only

/-- Contents of one backend: the string-valued keys and the list-valued
keys. -/
structure KVState where
  json_map : List (String × PyVal)
  list_map : List (String × List PyVal)
  deriving Repr

/-- Result of one store operation: the returned value, the instance state,
and both backends.  Whether the durable store was attempted is exactly
`can_use_redis` of the incoming handle (every method starts with
`if self._can_use_redis(): try ...`). -/
structure OpResult (α : Type) where
  val : α
  handle : Handle
  redis : KVState
  mem : KVState
  deriving Repr

namespace RedisStore

/-- Each operation takes `redisOk`: whether the attempted Redis calls of
this one method invocation would succeed or raise
`RedisError`/`OSError`. -/
def push_dialog (h : Handle) (redisOk : Bool) (rs ms : KVState)
    (user_id : String) (message : PyVal) : OpResult Unit :=
  let key := "dialog:" ++ user_id
  if can_use_redis h then
    if redisOk then
      ⟨(), h, { rs with list_map :=
        (aset rs.list_map key ((alookup rs.list_map key).getD [] ++ [message])) }, ms⟩
    else
      ⟨(), mark_unavailable h, rs, { ms with list_map :=
        (aset ms.list_map key ((alookup ms.list_map key).getD [] ++ [message])) }⟩
  else
    ⟨(), h, rs, { ms with list_map :=
      (aset ms.list_map key ((alookup ms.list_map key).getD [] ++ [message])) }⟩

/-- Python `items[-limit:]` (the in-memory branch of `fetch_dialog`):
`[-0:]` is the whole list, `[-n:]` for positive `n` the last `n` items. -/
def pySliceLastN {α : Type} (l : List α) (n : Nat) : List α :=
  if n = 0 then l else l.drop (l.length - n)

/-- Redis `LRANGE key start -1` for a non-negative `start`. -/
def lrangeToEnd {α : Type} (l : List α) (start : Nat) : List α := l.drop start

def fetch_dialog (h : Handle) (redisOk : Bool) (rs ms : KVState)
    (user_id : String) (limit : Nat) : OpResult (List PyVal) :=
  let key := "dialog:" ++ user_id
  if can_use_redis h then
    if redisOk then
      let items := (alookup rs.list_map key).getD []
      -- llen, then start = max(length - limit, 0), then lrange(start, -1)
      ⟨lrangeToEnd items (items.length - limit), h, rs, ms⟩
    else
      ⟨pySliceLastN ((alookup ms.list_map key).getD []) limit,
        mark_unavailable h, rs, ms⟩
  else
    ⟨pySliceLastN ((alookup ms.list_map key).getD []) limit, h, rs, ms⟩

def set_json (h : Handle) (redisOk : Bool) (rs ms : KVState)
    (key : String) (value : PyVal) (_expire : Option Nat) : OpResult Unit :=
  if can_use_redis h then
    if redisOk then
      ⟨(), h, { rs with json_map := aset rs.json_map key value }, ms⟩
    else
      ⟨(), mark_unavailable h, rs,
        { ms with json_map := aset ms.json_map key value }⟩
  else
    ⟨(), h, rs, { ms with json_map := aset ms.json_map key value }⟩

def get_json (h : Handle) (redisOk : Bool) (rs ms : KVState)
    (key : String) : OpResult (Option PyVal) :=
  if can_use_redis h then
    if redisOk then
      ⟨alookup rs.json_map key, h, rs, ms⟩
    else
      ⟨alookup ms.json_map key, mark_unavailable h, rs, ms⟩
  else
    ⟨alookup ms.json_map key, h, rs, ms⟩

def delete (h : Handle) (redisOk : Bool) (rs ms : KVState)
    (key : String) : OpResult Unit :=
  if can_use_redis h then
    if redisOk then
      ⟨(), h, { json_map := aremove rs.json_map key,
                list_map := aremove rs.list_map key }, ms⟩
    else
      ⟨(), mark_unavailable h, rs,
        { json_map := aremove ms.json_map key,
          list_map := aremove ms.list_map key }⟩
  else
    ⟨(), h, rs,
      { json_map := aremove ms.json_map key,
        list_map := aremove ms.list_map key }⟩

/-- Embedding of `keys`: Redis `KEYS pattern` sees every key of the backend; the
in-memory branch iterates `_memory_json` only. -/
def keys (h : Handle) (redisOk : Bool) (rs ms : KVState)
    (pattern : String) : OpResult (List String) :=
  if can_use_redis h then
    if redisOk then
      ⟨(rs.json_map.map Prod.fst ++ rs.list_map.map Prod.fst).filter
        (fun k => fnmatch k pattern), h, rs, ms⟩
    else
      ⟨(ms.json_map.map Prod.fst).filter (fun k => fnmatch k pattern),
        mark_unavailable h, rs, ms⟩
  else
    ⟨(ms.json_map.map Prod.fst).filter (fun k => fnmatch k pattern), h, rs, ms⟩

end RedisStore

/-! ## Knowledge retrieval facade (services/storage/knowledge_base.py)

Embedding vectors are opaque to every claim; their float entries are
modelled as integers.  `GeminiClient.embed_text` wraps every internal
failure into `EmbeddingServiceUnavailable`, so the provider is a function
returning either a vector or that one exception. -/

abbrev EmbedVec := List Int

abbrev EmbedFun := String → Except Unit EmbedVec

structure KnowledgeSearchHit where
  id : String
  score : Int
  text : String
  metadata : List (String × PyVal)
  deriving Repr

structure KnowledgeSearchResponse where
  hits : List KnowledgeSearchHit
  query : String
  embedding_available : Bool
  deriving Repr

namespace KnowledgeBase

/-- Embedding of `KnowledgeBase.search`.  The OpenSearch k-NN call and the
per-hit reformatting loop (`_id`/`_score`/`_source` extraction) are modelled
together as `storeSearch`, already at the hit level. -/
def search (embed : EmbedFun)
    (storeSearch : EmbedVec → Nat → List KnowledgeSearchHit)
    (query : String) (k : Nat := 5) : KnowledgeSearchResponse :=
  match embed query with
  | .error _ => { hits := [], query := query, embedding_available := false }
  | .ok vec =>
    { hits := storeSearch vec k, query := query, embedding_available := true }

/-- Embedding of `KnowledgeBase.index_dialog`: only
`EmbeddingServiceUnavailable` is caught (returning `false`); a failure of
the OpenSearch upsert itself propagates, which the `Except` models. -/
def index_dialog (embed : EmbedFun) (upsert : Except Unit Unit)
    (_dialog_id text : String) (_metadata : List (String × String)) :
    Except Unit Bool :=
  match embed text with
  | .error _ => .ok false
  | .ok _ => upsert.map (fun _ => true)

end KnowledgeBase

/-! ## Chat router (routers/chat.py)

Data model from schemas/chat.py.  `ChatMessage.timestamp` is a server-side
default the claims never read and is omitted.  FastAPI turns every uncaught
exception (`KeyError`, `TypeError`, pydantic `ValidationError`, provider
errors) into one generic 500 response, modelled as `internalError`; the
structured 404/403 rejections keep their `HTTPException` details. -/

structure ChatMessage where
  role : String
  content : String
  metadata : Option (List (String × PyVal)) := Option.none
  deriving Repr

structure ChatRequest where
  user_id : String
  content : String
  metadata : Option (List (String × PyVal)) := Option.none
  deriving Repr

structure CalculatorExecutionRequest where
  plan_id : String
  user_id : String
  deriving Repr

structure OrchestrationDecision where
  mode : String
  summary : Option String := Option.none
  calculator_instructions : Option String := Option.none
  tool_calls : List String := []
  metadata : List (String × PyVal) := []
  deriving Repr

structure CalculatorPlan where
  plan_id : String
  description : String
  variables' : List (String × PyVal)
  formulas : List String
  suggested_tool : String
  followups : List String
  original_message : ChatMessage
  deriving Repr

/-- Response model.  `decision` and `knowledge_hits` travel as raw parsed
JSON: for records written by `post_message` the pydantic re-validation at
response construction always succeeds and is abstracted. -/
structure ChatResponse where
  reply : ChatMessage
  decision : PyVal
  knowledge_hits : PyVal
  tool_results : List ToolExecutionResult
  deriving Repr

structure HTTPExceptionModel where
  status_code : Nat
  detail : String
  deriving Repr, DecidableEq

def internalError : HTTPExceptionModel :=
  { status_code := 500, detail := "Internal Server Error" }

def planNotFound : HTTPExceptionModel :=
  { status_code := 404, detail := "Plan expired or not found" }

def planForbidden : HTTPExceptionModel :=
  { status_code := 403, detail := "Plan ownership mismatch" }

/-- The process state the chat endpoints touch: the durable backend, the
process-wide in-memory fallback maps, and the instance state of the
app-lifetime `ConversationManager`'s own `RedisStore` (`self._redis`).
The `store` dependency of each request is a fresh instance (`get_store`)
and therefore lives inside the endpoint embedding, not here. -/
structure ChatState where
  redis : KVState
  mem : KVState
  conv : Handle
  deriving Repr

/-- Redis availability for the operations one `execute_plan` request can
attempt (each flag answers: would this method's Redis calls succeed?). -/
structure ExecAvail where
  get_ok : Bool
  push_ok : Bool
  delete_ok : Bool
  deriving Repr

/-- Outcomes of the external collaborators one `execute_plan` request
consults: the reply-drafting generation call, the dialog-indexing call
(`Except.error` models an OpenSearch upsert failure propagating, `ok b`
the usual non-throwing path), and the wall-clock reading of the sandbox
run. -/
structure ExecEnv where
  draft_reply : Except Unit String
  index_dialog_res : Except Unit Bool
  elapsed_ms : Nat
  deriving Repr

/-- Dump of a reply message as `ConversationManager.append_messages` stores
it (`timestamp` omitted, metadata defaulted to the empty dict). -/
def chatMessageToPyVal (m : ChatMessage) : PyVal :=
  .dict [("role", .str m.role), ("content", .str m.content),
    ("metadata", .dict (m.metadata.getD []))]

/-- Pydantic validation of `ChatMessage(**stored_dict)`: `role` must be one
of the four literals, `content` a string, `metadata` a dict or None. -/
def parseChatMessage (v : PyVal) : Option ChatMessage :=
  match v with
  | .dict d =>
    match alookup d "role", alookup d "content" with
    | some (.str r), some (.str c) =>
      if r ∈ ["user", "assistant", "system", "tool"] then
        match alookup d "metadata" with
        | some (.dict m) => some { role := r, content := c, metadata := some m }
        | some .none => some { role := r, content := c }
        | Option.none => some { role := r, content := c }
        | some _ => Option.none
      else Option.none
    | _, _ => Option.none
  | _ => Option.none

/-- The `code` entry popped from the plan variables, as pydantic and the
executor see it: a string holding Python source is carried parsed
(`PyVal.code`); the empty-string default is the empty script; any other
string is a data string whose `exec` raises `SyntaxError`, modelled by a
single raising statement; a non-string fails the `ToolExecutionRequest`
validation (`none`). -/
def scriptOfCode : PyVal → Option (List Stmt)
  | .code ast => some ast
  | .str s =>
    some (if s = "" then []
      else [Stmt.raiseStmt "invalid syntax (<string>, line 1)"])
  | _ => Option.none

/-- Model of `plan_payload.get("suggested_tool", "python_code_executor")`
followed by the `name: str` validation. -/
def toolNameOf : Option PyVal → Option String
  | Option.none => some "python_code_executor"
  | some (.str s) => some s
  | some _ => Option.none

/-- Model of `plan_payload.get("description")` followed by the
`rationale: str | None` validation. -/
def rationaleOf : Option PyVal → Option (Option String)
  | Option.none => some Option.none
  | some .none => some Option.none
  | some (.str s) => some (some s)
  | some _ => Option.none

/-- Embedding of the `POST /chat/execute` endpoint (`execute_plan`,
routers/chat.py lines 157-211), one request end to end.

Steps in source order: a fresh per-request `RedisStore` (`get_store`)
performs `get_json`; an absent or falsy record is a 404; an owner mismatch
a 403; the stored plan is unpacked (`KeyError`/`TypeError`/pydantic failures
become generic 500s); the `code` entry is popped from the variables; the
calculator registry runs the tool; `draft_calculator_reply` returns one
string that the router destructures as `reply_text, tools_used = ...`, which
in Python unpacks a string only when it has exactly two characters
(`ValueError` otherwise); the reply is appended through the app-wide
conversation manager's store instance; the dialog is indexed; only then is
the plan record deleted through the same per-request store instance. -/
def execute_plan (env : ExecEnv) (avail : ExecAvail) (st : ChatState)
    (payload : CalculatorExecutionRequest) :
    Except HTTPExceptionModel ChatResponse × ChatState :=
  let key := "plan:" ++ payload.plan_id
  let g := RedisStore.get_json freshStore avail.get_ok st.redis st.mem key
  match g.val with
  | Option.none => (.error planNotFound, st)
  | some data =>
    if pyFalsy data then (.error planNotFound, st)
    else
      match data with
      | .dict entries =>
        -- data.get("user_id") != payload.user_id
        let owner_ok :=
          match alookup entries "user_id" with
          | some (.str u) => u = payload.user_id
          | _ => false
        if !owner_ok then (.error planForbidden, st)
        else
          match alookup entries "plan" with
          | Option.none => (.error internalError, st)
          | some planVal =>
            match planVal with
            | .dict plan =>
              match alookup plan "original_message" with
              | Option.none => (.error internalError, st)
              | some om =>
                match parseChatMessage om with
                | Option.none => (.error internalError, st)
                | some _original_message =>
                  match alookup entries "decision" with
                  | Option.none => (.error internalError, st)
                  | some decision =>
                    let knowledge_hits :=
                      (alookup entries "knowledge").getD (.list [])
                    match (alookup plan "variables").getD (.dict []) with
                    | .dict vars0 =>
                      let codeVal := (alookup vars0 "code").getD (.str "")
                      let vars := aremove vars0 "code"
                      match scriptOfCode codeVal,
                          toolNameOf (alookup plan "suggested_tool"),
                          rationaleOf (alookup plan "description") with
                      | some script, some nm, some rat =>
                        let req : ToolExecutionRequest :=
                          { name := nm, code := script, variables' := vars,
                            rationale := rat }
                        let result := ToolRegistry.execute req
                          (RestrictedPythonExecutor.interpOutcome req
                            env.elapsed_ms)
                        match env.draft_reply with
                        | .error _ => (.error internalError, st)
                        | .ok reply_full =>
                          match reply_full.toList with
                          | [c1, c2] =>
                            let reply : ChatMessage :=
                              { role := "assistant"
                                content := String.singleton c1
                                metadata := some [("tools_used",
                                  .str (String.singleton c2))] }
                            let p := RedisStore.push_dialog st.conv
                              avail.push_ok st.redis st.mem payload.user_id
                              (chatMessageToPyVal reply)
                            let st2 : ChatState :=
                              { redis := p.redis, mem := p.mem,
                                conv := p.handle }
                            match env.index_dialog_res with
                            | .error _ => (.error internalError, st2)
                            | .ok _ =>
                              let d := RedisStore.delete g.handle
                                avail.delete_ok st2.redis st2.mem key
                              let st3 : ChatState :=
                                { redis := d.redis, mem := d.mem,
                                  conv := st2.conv }
                              let resp : ChatResponse :=
                                { reply := reply, decision := decision,
                                  knowledge_hits := knowledge_hits,
                                  tool_results := [result] }
                              (.ok resp, st3)
                          | _ => (.error internalError, st)
                      | _, _, _ => (.error internalError, st)
                    | _ => (.error internalError, st)
            | _ => (.error internalError, st)
      | _ => (.error internalError, st)

/-! ## The `POST /chat/messages` endpoint (`post_message`, lines 69-154) -/

/-- Parameters of `KnowledgeBase.search` after `self`
(knowledge_base.py line 56: `query` and `k`). -/
def knowledge_search_params : List String := ["query", "k"]

/-- Keyword arguments `post_message` passes to `knowledge_base.search`
beyond the positional query (chat.py line 83). -/
def post_message_search_kwargs : List String := ["user_id"]

/-- Python call binding for keyword arguments: a keyword that is not a
parameter raises `TypeError: got an unexpected keyword argument`. -/
def kwargsBind (accepted kwargs : List String) : Bool :=
  kwargs.all (fun kw => kw ∈ accepted)

def profilePart (label : String) (v : Option PyVal) : List String :=
  match v with
  | some x => if pyFalsy x then [] else [label ++ ": " ++ pyStr x]
  | Option.none => []

/-- Embedding of `_get_company_profile_info`: builds the profile summary
when the stored blob is a dict with a truthy `company_name`; every
exception (including `.get` on a non-dict) is swallowed to `None`. -/
def companyProfileInfo : Option PyVal → Option String
  | some (.dict d) =>
    (match alookup d "company_name" with
    | some v =>
      if pyFalsy v then Option.none
      else some (String.intercalate "\n"
        (["Название компании: " ++ pyStr v] ++
          profilePart "Индустрия" (alookup d "industry") ++
          profilePart "Количество сотрудников" (alookup d "employees") ++
          profilePart "Выручка" (alookup d "annual_revenue") ++
          profilePart "Цели" (alookup d "goals")))
    | Option.none => Option.none)
  | _ => Option.none

def company_related_keywords : List String :=
  ["компания", "называется", "название", "организация", "фирма", "наша",
    "моей", "моя", "мы"]

/-- The pinned knowledge hit built from the company profile
(score 10.0, modelled as the integer 10). -/
def companyHit (info : String) : KnowledgeSearchHit :=
  { id := "company_profile", score := 10, text := info,
    metadata := [("source", .str "company_profile"),
      ("type", .str "company_info")] }

def hitToPyVal (h : KnowledgeSearchHit) : PyVal :=
  .dict [("id", .str h.id), ("score", .int h.score), ("text", .str h.text),
    ("metadata", .dict h.metadata)]

def optStrToPyVal : Option String → PyVal
  | some s => .str s
  | Option.none => .none

def decisionToPyVal (d : OrchestrationDecision) : PyVal :=
  .dict [("mode", .str d.mode), ("summary", optStrToPyVal d.summary),
    ("calculator_instructions", optStrToPyVal d.calculator_instructions),
    ("tool_calls", .list (d.tool_calls.map PyVal.str)),
    ("metadata", .dict d.metadata)]

/-- Dump via `ChatMessage.model_dump(mode="json")` (timestamp omitted, see
`ChatMessage`). -/
def chatMessageDump (m : ChatMessage) : PyVal :=
  .dict [("role", .str m.role), ("content", .str m.content),
    ("metadata", match m.metadata with
      | some d => .dict d
      | Option.none => .none)]

/-- What `AIOrchestrator.draft_calculator_plan` returns: the structured
response coerced through `.get` with defaults, so all five keys are present
but their values are whatever JSON the provider produced. -/
structure PlanRaw where
  description : PyVal := .str ""
  variables' : PyVal := .dict []
  formulas : PyVal := .list []
  suggested_tool : PyVal := .str "python_code_executor"
  followups : PyVal := .list []
  deriving Repr

def strListOf : PyVal → Option (List String)
  | .list items =>
    items.foldr (fun v acc =>
      match v, acc with
      | .str s, some rest => some (s :: rest)
      | _, _ => Option.none) (some [])
  | _ => Option.none

/-- Pydantic validation performed by `CalculatorPlan(...)` in
`post_message`. -/
def buildCalculatorPlan (plan_id : String) (raw : PlanRaw)
    (original : ChatMessage) : Option CalculatorPlan :=
  match raw.description, raw.variables', strListOf raw.formulas,
      raw.suggested_tool, strListOf raw.followups with
  | .str desc, .dict vars, some fs, .str tool, some fus =>
    let plan : CalculatorPlan :=
      { plan_id := plan_id, description := desc, variables' := vars,
        formulas := fs, suggested_tool := tool, followups := fus,
        original_message := original }
    some plan
  | _, _, _, _, _ => Option.none

def calculatorPlanToPyVal (p : CalculatorPlan) : PyVal :=
  .dict [("plan_id", .str p.plan_id), ("description", .str p.description),
    ("variables", .dict p.variables'),
    ("formulas", .list (p.formulas.map PyVal.str)),
    ("suggested_tool", .str p.suggested_tool),
    ("followups", .list (p.followups.map PyVal.str)),
    ("original_message", chatMessageDump p.original_message)]

/-- Redis availability flags for the operations one `post_message` request
can attempt. -/
structure PostAvail where
  push_ok : Bool
  fetch_ok : Bool
  profile_ok : Bool
  set_ok : Bool
  reply_push_ok : Bool
  deriving Repr

/-- External collaborator outcomes for one `post_message` request:
the knowledge search response the facade would return, the classification
decision (provider failure or pydantic rejection of `mode` is fatal), the
advisor reply draft, the coerced calculator-plan fields, the dialog
indexing outcome, and the generated `uuid4` plan id. -/
structure PostEnv where
  knowledge : KnowledgeSearchResponse
  decision : Except Unit OrchestrationDecision
  advisor_reply : Except Unit String
  plan_raw : Except Unit PlanRaw
  index_dialog_res : Except Unit Bool
  plan_id : String
  deriving Repr

/-- Embedding of the `POST /chat/messages` endpoint (`post_message`,
routers/chat.py lines 69-154), one request end to end.

The call on line 83 is `knowledge_base.search(payload.content,
user_id=payload.user_id)`, while `KnowledgeBase.search` accepts only
`query` and `k`: the keyword binding step is modelled explicitly, and the
remainder of the endpoint (company-hit pinning, classification, the advisor
and calculator branches) is the continuation behind it. -/
def post_message (env : PostEnv) (avail : PostAvail) (st : ChatState)
    (payload : ChatRequest) :
    Except HTTPExceptionModel ChatResponse × ChatState :=
  let user_message : ChatMessage :=
    { role := "user", content := payload.content, metadata := payload.metadata }
  let p1 := RedisStore.push_dialog st.conv avail.push_ok st.redis st.mem
    payload.user_id (chatMessageToPyVal user_message)
  let f := RedisStore.fetch_dialog p1.handle avail.fetch_ok p1.redis p1.mem
    payload.user_id 10
  let storeReq := freshStore
  let gp := RedisStore.get_json storeReq avail.profile_ok f.redis f.mem
    ("company-profile:" ++ payload.user_id)
  let company_info := companyProfileInfo gp.val
  let st1 : ChatState := { redis := gp.redis, mem := gp.mem, conv := f.handle }
  if !(kwargsBind knowledge_search_params post_message_search_kwargs) then
    -- TypeError: search() got an unexpected keyword argument, a generic 500
    (.error internalError, st1)
  else
    -- "keyword in payload.content.lower()"; String.toLower lowers ASCII
    -- only, while Python lowers Cyrillic too - the keywords themselves are
    -- already lowercase, and this branch sits behind the failing call below
    let is_company_query := company_related_keywords.any
      (fun kw => decide (kw.data <:+: payload.content.toLower.data))
    let knowledge :=
      match company_info with
      | some info =>
        if is_company_query then
          { env.knowledge with hits := companyHit info :: env.knowledge.hits }
        else env.knowledge
      | Option.none => env.knowledge
    match env.decision with
    | .error _ => (.error internalError, st1)
    | .ok dec =>
      if dec.mode = "advisor" then
        match env.advisor_reply with
        | .error _ => (.error internalError, st1)
        | .ok txt =>
          let reply : ChatMessage := { role := "assistant", content := txt }
          let p2 := RedisStore.push_dialog st1.conv avail.reply_push_ok
            st1.redis st1.mem payload.user_id (chatMessageToPyVal reply)
          let st2 : ChatState :=
            { redis := p2.redis, mem := p2.mem, conv := p2.handle }
          match env.index_dialog_res with
          | .error _ => (.error internalError, st2)
          | .ok _ =>
            let resp : ChatResponse :=
              { reply := reply, decision := decisionToPyVal dec,
                knowledge_hits := .list (knowledge.hits.map hitToPyVal),
                tool_results := [] }
            (.ok resp, st2)
      else
        match env.plan_raw with
        | .error _ => (.error internalError, st1)
        | .ok raw =>
          match buildCalculatorPlan env.plan_id raw user_message with
          | Option.none => (.error internalError, st1)
          | some plan =>
            let record : PyVal :=
              .dict [("plan", calculatorPlanToPyVal plan),
                ("user_id", .str payload.user_id),
                ("decision", decisionToPyVal dec),
                ("knowledge", .list (knowledge.hits.map hitToPyVal))]
            let sj := RedisStore.set_json gp.handle avail.set_ok st1.redis
              st1.mem ("plan:" ++ env.plan_id) record (some (60 * 30))
            let reply : ChatMessage :=
              { role := "assistant"
                content :=
                  "Я подготовил план расчёта. Подтвердите, пожалуйста, " ++
                  "выполнение.\n" ++
                  "Описание: " ++ plan.description ++ "\n" ++
                  "Переменные: " ++ pyStr (.dict plan.variables') ++ "\n" ++
                  "Формулы: " ++ pyStr (.list (plan.formulas.map PyVal.str))
                metadata := some [("plan_id", .str env.plan_id),
                  ("followups", .list (plan.followups.map PyVal.str))] }
            let p2 := RedisStore.push_dialog st1.conv avail.reply_push_ok
              sj.redis sj.mem payload.user_id (chatMessageToPyVal reply)
            let st2 : ChatState :=
              { redis := p2.redis, mem := p2.mem, conv := p2.handle }
            let resp : ChatResponse :=
              { reply := reply, decision := decisionToPyVal dec,
                knowledge_hits := .list (knowledge.hits.map hitToPyVal),
                tool_results := [] }
            (.ok resp, st2)

/-! ## Supporting lemmas -/

theorem alookup_aset_self {α : Type} (m : List (String × α)) (k : String)
    (v : α) : alookup (aset m k v) k = some v := by
  induction m with
  | nil => simp [aset, alookup]
  | cons p rest ih =>
    obtain ⟨k0, v0⟩ := p
    by_cases h : k0 = k
    · simp [aset, h, alookup]
    · simp [aset, h, alookup, ih]

theorem alookup_aremove_self {α : Type} (m : List (String × α)) (k : String) :
    alookup (aremove m k) k = Option.none := by
  induction m with
  | nil => simp [aremove, alookup]
  | cons p rest ih =>
    obtain ⟨k0, v0⟩ := p
    by_cases h : k0 = k
    · simp [aremove, h, ih]
    · simp [aremove, h, alookup, ih]

theorem globMatch_star_any (s : List Char) : globMatch ['*'] s = true := by
  induction s with
  | nil => simp [globMatch]
  | cons c s ih => rw [globMatch]; simp [ih]

theorem globMatch_literal_star_iff (p : List Char)
    (hp : ∀ c ∈ p, c ≠ '*' ∧ c ≠ '?' ∧ c ≠ '[') (s : List Char) :
    (globMatch (p ++ ['*']) s = true ↔ p <+: s) := by
  induction p generalizing s with
  | nil => simp [globMatch_star_any]
  | cons c p ih =>
    obtain ⟨hc1, hc2, hc3⟩ := hp c (by simp)
    cases s with
    | nil =>
      rw [List.cons_append, globMatch]
      simp [hc1, hc2, hc3]
    | cons d s =>
      rw [List.cons_append, globMatch]
      simp only [hc1, hc2, hc3, if_false]
      simp [ih (fun c hc => hp c (by simp [hc])), List.cons_prefix_cons]

theorem fnmatch_literal_star (p k : String)
    (hp : ∀ c ∈ p.data, c ≠ '*' ∧ c ≠ '?' ∧ c ≠ '[') :
    fnmatch k (p ++ "*") = decide (p.data <+: k.data) := by
  have hdata : (p ++ "*").data = p.data ++ ['*'] := by
    simp [String.data_append]
  rw [fnmatch, hdata]
  rcases hb : decide (p.data <+: k.data) with _ | _
  · simp at hb
    rcases hg : globMatch (p.data ++ ['*']) k.data with _ | _
    · rfl
    · exact absurd ((globMatch_literal_star_iff p.data hp k.data).mp hg) hb
  · simp at hb
    exact (globMatch_literal_star_iff p.data hp k.data).mpr hb

/-! ## Claim theorems -/

/-- C7. In-memory fallback round-trip and prefix listing: on a degraded
store handle, `set_json k v` followed by `get_json k` returns `v` through
the in-memory maps, and `keys (p ++ "*")` (for a wildcard-free `p`) returns
exactly the stored string keys having prefix `p`. -/
theorem memory_store_roundtrip_and_prefix_listing
    (h : Handle) (redisOk : Bool) (rs ms : KVState) (k p : String)
    (v : PyVal) (expire : Option Nat)
    (hdeg : h.use_memory_only = true)
    (hp : ∀ c ∈ p.data, c ≠ '*' ∧ c ≠ '?' ∧ c ≠ '[') :
    (RedisStore.get_json
        (RedisStore.set_json h redisOk rs ms k v expire).handle redisOk
        (RedisStore.set_json h redisOk rs ms k v expire).redis
        (RedisStore.set_json h redisOk rs ms k v expire).mem k).val
      = some v ∧
    (RedisStore.keys
        (RedisStore.set_json h redisOk rs ms k v expire).handle redisOk
        (RedisStore.set_json h redisOk rs ms k v expire).redis
        (RedisStore.set_json h redisOk rs ms k v expire).mem
        (p ++ "*")).val
      = ((RedisStore.set_json h redisOk rs ms k v expire).mem.json_map.map
          Prod.fst).filter (fun key => decide (p.data <+: key.data)) := by
  have hcu : can_use_redis h = false := by
    simp [can_use_redis, hdeg]
  constructor
  · simp [RedisStore.set_json, RedisStore.get_json, hcu, alookup_aset_self]
  · simp only [RedisStore.set_json, RedisStore.keys, hcu, Bool.false_eq_true,
      if_false]
    exact List.filter_congr (fun key _ => fnmatch_literal_star p key hp)

/-- Concrete instance data for the C7 witness. -/
def witnessMem : KVState :=
  { json_map := [("plan:zzz", .int 1), ("dialog-x", .int 2)], list_map := [] }

theorem memory_store_roundtrip_and_prefix_listing_witness :
    (RedisStore.get_json
        (RedisStore.set_json ⟨true⟩ true ⟨[], []⟩ witnessMem "plan:1"
          (.int 7) (some 10)).handle true
        (RedisStore.set_json ⟨true⟩ true ⟨[], []⟩ witnessMem "plan:1"
          (.int 7) (some 10)).redis
        (RedisStore.set_json ⟨true⟩ true ⟨[], []⟩ witnessMem "plan:1"
          (.int 7) (some 10)).mem "plan:1").val
      = some (.int 7) ∧
    (RedisStore.keys
        (RedisStore.set_json ⟨true⟩ true ⟨[], []⟩ witnessMem "plan:1"
          (.int 7) (some 10)).handle true
        (RedisStore.set_json ⟨true⟩ true ⟨[], []⟩ witnessMem "plan:1"
          (.int 7) (some 10)).redis
        (RedisStore.set_json ⟨true⟩ true ⟨[], []⟩ witnessMem "plan:1"
          (.int 7) (some 10)).mem "plan:*").val
      = ((RedisStore.set_json ⟨true⟩ true ⟨[], []⟩ witnessMem "plan:1"
          (.int 7) (some 10)).mem.json_map.map Prod.fst).filter
          (fun key => decide ("plan:".data <+: key.data)) :=
  memory_store_roundtrip_and_prefix_listing ⟨true⟩ true ⟨[], []⟩ witnessMem
    "plan:1" "plan:" (.int 7) (some 10) rfl (by decide)

/-- C8 counterexample. The degraded flag is not process-wide: an operation
on one `RedisStore` instance hits a Redis error and flips that instance's
flag (first two conjuncts: the flag is set and the value comes from the
empty in-memory map), yet a subsequent operation through a freshly
constructed instance — which is what `get_store` hands every request —
attempts the durable store again and returns the durable value instead of
the in-memory one. -/
theorem degradation_not_process_wide :
    ((RedisStore.get_json freshStore false ⟨[("k", .int 1)], []⟩ ⟨[], []⟩
        "k").handle.use_memory_only = true) ∧
    ((RedisStore.get_json freshStore false ⟨[("k", .int 1)], []⟩ ⟨[], []⟩
        "k").val = Option.none) ∧
    ((RedisStore.get_json freshStore true ⟨[("k", .int 1)], []⟩ ⟨[], []⟩
        "k").val = some (.int 1)) :=
  ⟨rfl, rfl, rfl⟩

/-- C8 (amended). Degradation is sticky per store instance: once an
instance's `_use_memory_only` flag is set, every operation on that instance
reads and writes only the process-wide in-memory maps, leaves the durable
backend untouched, and keeps the flag set (no reset path exists); moreover
any operation whose Redis attempt fails leaves its instance degraded.  A
fresh instance (one per request via `get_store`) starts undegraded and
attempts the durable store again. -/
theorem degradation_sticky_per_handle (h : Handle) (redisOk : Bool)
    (rs ms : KVState) (k pat uid : String) (v : PyVal) (limit : Nat)
    (expire : Option Nat) (hdeg : h.use_memory_only = true) :
    RedisStore.get_json h redisOk rs ms k = ⟨alookup ms.json_map k, h, rs, ms⟩ ∧
    RedisStore.set_json h redisOk rs ms k v expire =
      ⟨(), h, rs, { ms with json_map := aset ms.json_map k v }⟩ ∧
    RedisStore.delete h redisOk rs ms k =
      ⟨(), h, rs,
        { json_map := aremove ms.json_map k,
          list_map := aremove ms.list_map k }⟩ ∧
    RedisStore.keys h redisOk rs ms pat =
      ⟨(ms.json_map.map Prod.fst).filter (fun key => fnmatch key pat),
        h, rs, ms⟩ ∧
    RedisStore.push_dialog h redisOk rs ms uid v =
      ⟨(), h, rs,
        { ms with list_map :=
            (aset ms.list_map ("dialog:" ++ uid)
              ((alookup ms.list_map ("dialog:" ++ uid)).getD [] ++ [v])) }⟩ ∧
    RedisStore.fetch_dialog h redisOk rs ms uid limit =
      ⟨RedisStore.pySliceLastN ((alookup ms.list_map ("dialog:" ++ uid)).getD [])
        limit, h, rs, ms⟩ ∧
    (∀ h2 : Handle, (RedisStore.get_json h2 false rs ms k).handle.use_memory_only
      = true) ∧
    (∀ h2 : Handle, (RedisStore.set_json h2 false rs ms k v
      expire).handle.use_memory_only = true) := by
  have hcu : can_use_redis h = false := by simp [can_use_redis, hdeg]
  refine ⟨?_, ?_, ?_, ?_, ?_, ?_, ?_, ?_⟩
  · simp [RedisStore.get_json, hcu]
  · simp [RedisStore.set_json, hcu]
  · simp [RedisStore.delete, hcu]
  · simp [RedisStore.keys, hcu]
  · simp [RedisStore.push_dialog, hcu]
  · simp [RedisStore.fetch_dialog, hcu]
  · intro h2
    by_cases hc : can_use_redis h2
    · simp [RedisStore.get_json, hc, mark_unavailable]
    · simp [RedisStore.get_json, hc]
      simp [can_use_redis] at hc
      exact hc
  · intro h2
    by_cases hc : can_use_redis h2
    · simp [RedisStore.set_json, hc, mark_unavailable]
    · simp [RedisStore.set_json, hc]
      simp [can_use_redis] at hc
      exact hc

theorem degradation_sticky_per_handle_witness :
    RedisStore.get_json ⟨true⟩ true ⟨[("k", .int 9)], []⟩ ⟨[], []⟩ "k" =
      ⟨alookup ([] : List (String × PyVal)) "k", ⟨true⟩,
        ⟨[("k", .int 9)], []⟩, ⟨[], []⟩⟩ ∧
    RedisStore.set_json ⟨true⟩ true ⟨[("k", .int 9)], []⟩ ⟨[], []⟩ "k"
        (.int 5) Option.none =
      ⟨(), ⟨true⟩, ⟨[("k", .int 9)], []⟩,
        { (⟨[], []⟩ : KVState) with
          json_map := aset ([] : List (String × PyVal)) "k" (.int 5) }⟩ ∧
    RedisStore.delete ⟨true⟩ true ⟨[("k", .int 9)], []⟩ ⟨[], []⟩ "k" =
      ⟨(), ⟨true⟩, ⟨[("k", .int 9)], []⟩,
        { json_map := aremove ([] : List (String × PyVal)) "k",
          list_map := aremove ([] : List (String × List PyVal)) "k" }⟩ ∧
    RedisStore.keys ⟨true⟩ true ⟨[("k", .int 9)], []⟩ ⟨[], []⟩ "*" =
      ⟨(([] : List (String × PyVal)).map Prod.fst).filter
        (fun key => fnmatch key "*"), ⟨true⟩, ⟨[("k", .int 9)], []⟩,
        ⟨[], []⟩⟩ ∧
    RedisStore.push_dialog ⟨true⟩ true ⟨[("k", .int 9)], []⟩ ⟨[], []⟩ "u"
        (.int 5) =
      ⟨(), ⟨true⟩, ⟨[("k", .int 9)], []⟩,
        { (⟨[], []⟩ : KVState) with
          list_map :=
            (aset ([] : List (String × List PyVal)) ("dialog:" ++ "u")
              ((alookup ([] : List (String × List PyVal))
                ("dialog:" ++ "u")).getD [] ++ [.int 5])) }⟩ ∧
    RedisStore.fetch_dialog ⟨true⟩ true ⟨[("k", .int 9)], []⟩ ⟨[], []⟩ "u" 2 =
      ⟨RedisStore.pySliceLastN ((alookup ([] : List (String × List PyVal))
        ("dialog:" ++ "u")).getD []) 2, ⟨true⟩, ⟨[("k", .int 9)], []⟩,
        ⟨[], []⟩⟩ ∧
    (∀ h2 : Handle, (RedisStore.get_json h2 false ⟨[("k", .int 9)], []⟩
      ⟨[], []⟩ "k").handle.use_memory_only = true) ∧
    (∀ h2 : Handle, (RedisStore.set_json h2 false ⟨[("k", .int 9)], []⟩
      ⟨[], []⟩ "k" (.int 5) Option.none).handle.use_memory_only = true) :=
  degradation_sticky_per_handle ⟨true⟩ true ⟨[("k", .int 9)], []⟩ ⟨[], []⟩
    "k" "*" "u" (.int 5) 2 Option.none rfl

/-- C9. Degradation transparency of knowledge retrieval: when the embedding
provider fails on every call (it can only fail by raising
`EmbeddingServiceUnavailable`), `search` returns the empty-hit response with
`embedding_available = false` and `index_dialog` returns `false`, neither
raising. -/
theorem knowledge_degradation_transparency (embed : EmbedFun)
    (storeSearch : EmbedVec → Nat → List KnowledgeSearchHit)
    (upsert : Except Unit Unit) (q did text : String)
    (md : List (String × String)) (k : Nat)
    (hfail : ∀ t, embed t = .error ())
    (hq : q ≠ "") :
    KnowledgeBase.search embed storeSearch q k =
      { hits := [], query := q, embedding_available := false } ∧
    KnowledgeBase.index_dialog embed upsert did text md = .ok false := by
  constructor
  · simp [KnowledgeBase.search, hfail]
  · simp [KnowledgeBase.index_dialog, hfail]

theorem knowledge_degradation_transparency_witness :
    KnowledgeBase.search (fun _ => .error ()) (fun _ _ => []) "hello" 5 =
      { hits := [], query := "hello", embedding_available := false } ∧
    KnowledgeBase.index_dialog (fun _ => .error ()) (.ok ()) "d1" "text" [] =
      .ok false :=
  knowledge_degradation_transparency (fun _ => .error ()) (fun _ _ => [])
    (.ok ()) "hello" "d1" "text" [] 5 (fun _ => rfl) (by decide)

/-- C10. History tail read: with the same stored message list on both
backends, `fetch_dialog` with `limit = 0` returns nothing on the durable
path (`LRANGE` from index `llen`) but the whole list on the in-memory path
(`items[-0:]` is `items[0:]`); for every positive limit the two paths agree
and return the most recent `min limit n` items in append order,
newest-last. -/
theorem fetch_dialog_limit_semantics (h : Handle) (rs ms : KVState)
    (uid : String) (items : List PyVal) (limit : Nat)
    (hr : alookup rs.list_map ("dialog:" ++ uid) = some items)
    (hm : alookup ms.list_map ("dialog:" ++ uid) = some items)
    (hfresh : h.use_memory_only = false) :
    (RedisStore.fetch_dialog h true rs ms uid 0).val = [] ∧
    (RedisStore.fetch_dialog ⟨true⟩ true rs ms uid 0).val = items ∧
    (0 < limit →
      (RedisStore.fetch_dialog h true rs ms uid limit).val =
        (RedisStore.fetch_dialog ⟨true⟩ true rs ms uid limit).val) ∧
    (0 < limit →
      (RedisStore.fetch_dialog h true rs ms uid limit).val =
        items.drop (items.length - limit)) ∧
    (0 < limit →
      ((RedisStore.fetch_dialog h true rs ms uid limit).val).length =
        min limit items.length) := by
  have hcu : can_use_redis h = true := by simp [can_use_redis, hfresh]
  have hcm : can_use_redis ⟨true⟩ = false := by simp [can_use_redis]
  refine ⟨?_, ?_, ?_, ?_, ?_⟩
  · simp [RedisStore.fetch_dialog, hcu, hr, RedisStore.lrangeToEnd]
  · simp [RedisStore.fetch_dialog, hcm, hm, RedisStore.pySliceLastN]
  · intro hl
    simp [RedisStore.fetch_dialog, hcu, hcm, hr, hm, RedisStore.lrangeToEnd,
      RedisStore.pySliceLastN, Nat.pos_iff_ne_zero.mp hl]
  · intro hl
    simp [RedisStore.fetch_dialog, hcu, hr, RedisStore.lrangeToEnd]
  · intro hl
    simp [RedisStore.fetch_dialog, hcu, hr, RedisStore.lrangeToEnd]
    omega

/-- Concrete list for the C10 witness. -/
def witnessDialog : KVState :=
  { json_map := [], list_map := [("dialog:u", [.int 1, .int 2, .int 3])] }

theorem fetch_dialog_limit_semantics_witness :
    (RedisStore.fetch_dialog ⟨false⟩ true witnessDialog witnessDialog
      "u" 0).val = [] ∧
    (RedisStore.fetch_dialog ⟨true⟩ true witnessDialog witnessDialog
      "u" 0).val = [.int 1, .int 2, .int 3] ∧
    (0 < 2 →
      (RedisStore.fetch_dialog ⟨false⟩ true witnessDialog witnessDialog
        "u" 2).val =
      (RedisStore.fetch_dialog ⟨true⟩ true witnessDialog witnessDialog
        "u" 2).val) ∧
    (0 < 2 →
      (RedisStore.fetch_dialog ⟨false⟩ true witnessDialog witnessDialog
        "u" 2).val =
      ([PyVal.int 1, .int 2, .int 3] : List PyVal).drop
        (([PyVal.int 1, .int 2, .int 3] : List PyVal).length - 2)) ∧
    (0 < 2 →
      ((RedisStore.fetch_dialog ⟨false⟩ true witnessDialog witnessDialog
        "u" 2).val).length =
      min 2 ([PyVal.int 1, .int 2, .int 3] : List PyVal).length) :=
  fetch_dialog_limit_semantics ⟨false⟩ witnessDialog witnessDialog "u"
    [.int 1, .int 2, .int 3] 2 rfl rfl rfl

/-- C3. The executor never applies the configured timeout:
`Settings.calculator_timeout_sec` defaults to 10 seconds and
`RestrictedPythonExecutor.__init__` stores it in `self._timeout`, but
`execute` never consults it — whatever wall-clock time the `exec` call took
(here one full hour, far beyond the bound), a script that runs to completion
yields `success = true` with the elapsed time merely reported, and no
timeout fault is ever produced. -/
theorem executor_ignores_timeout :
    calculator_timeout_sec = 10 ∧
    (∀ (req : ToolExecutionRequest) (printed : String)
      (ns : List (String × PyVal)) (e : Nat),
      (RestrictedPythonExecutor.execute req ⟨printed, e, .ok ns⟩).success
        = true ∧
      (RestrictedPythonExecutor.execute req ⟨printed, e, .ok ns⟩).duration_ms
        = some e) ∧
    (RestrictedPythonExecutor.execute
        ⟨"python_code_executor", [], [], Option.none⟩ ⟨"", 3600000, .ok []⟩ =
      ⟨"python_code_executor", "<no output>", true, Option.none,
        some 3600000⟩) := by
  refine ⟨rfl, ?_, rfl⟩
  intro req printed ns e
  constructor <;> simp [RestrictedPythonExecutor.execute]

/-- C4 counterexample. A script consisting of the bare statement
`assert False` raises `AssertionError()` whose `str` is the empty string,
so the result is `success = false` with `error` populated by the empty
string — not a non-empty one. -/
theorem executor_empty_error_message :
    ToolRegistry.execute
      ⟨"python_code_executor", [Stmt.assertStmt (Expr.boolLit false)], [],
        Option.none⟩
      (RestrictedPythonExecutor.interpOutcome
        ⟨"python_code_executor", [Stmt.assertStmt (Expr.boolLit false)], [],
          Option.none⟩ 3) =
      ⟨"python_code_executor", "", false, some "", some 3⟩ ∧
    ("" : String).length = 0 :=
  ⟨rfl, rfl⟩

/-- C4 (amended). A result is never partially populated: on success the
output is non-empty (`"<no output>"` stands in for empty captured output)
and `error` is `None`; on failure `error` is populated with the `str` of
the fault — which is the empty string when the exception carries no
message, such as a bare failed `assert`; `duration_ms` always carries the
measured wall-clock milliseconds, and an unknown tool name yields the fixed
`Unknown tool` failure with duration 0. -/
theorem tool_result_population (req : ToolExecutionRequest)
    (run : ExecOutcome) :
    ((ToolRegistry.execute req run).success = true →
      (ToolRegistry.execute req run).output ≠ "" ∧
      (ToolRegistry.execute req run).error = Option.none) ∧
    ((ToolRegistry.execute req run).success = false →
      ∃ m, (ToolRegistry.execute req run).error = some m) ∧
    (req.name = "python_code_executor" →
      (ToolRegistry.execute req run).duration_ms = some run.elapsedMs) ∧
    (req.name ≠ "python_code_executor" →
      ToolRegistry.execute req run =
        ⟨req.name, "", false, some "Unknown tool", some 0⟩) := by
  by_cases hn : req.name = "python_code_executor"
  · cases hf : run.final with
    | error exc =>
      have hres : ToolRegistry.execute req run =
          ⟨req.name, pyStrip run.printed, false, some exc,
            some run.elapsedMs⟩ := by
        simp [ToolRegistry.execute, RestrictedPythonExecutor.execute, hn, hf]
      rw [hres]
      refine ⟨?_, ?_, ?_, ?_⟩
      · intro hs
        simp at hs
      · exact fun _ => ⟨exc, rfl⟩
      · exact fun _ => rfl
      · exact fun hne => absurd hn hne
    | ok ns =>
      have hres : ToolRegistry.execute req run =
          { name := req.name,
            output :=
              (if (match alookup ns "result" with
                  | some v => pyStrip run.printed ++ "\nresult = " ++ pyStr v
                  | Option.none => pyStrip run.printed) = "" then
                "<no output>"
              else
                (match alookup ns "result" with
                  | some v => pyStrip run.printed ++ "\nresult = " ++ pyStr v
                  | Option.none => pyStrip run.printed)),
            success := true, error := Option.none,
            duration_ms := some run.elapsedMs } := by
        simp [ToolRegistry.execute, RestrictedPythonExecutor.execute, hn, hf]
      rw [hres]
      refine ⟨?_, ?_, ?_, ?_⟩
      · intro _
        refine ⟨?_, rfl⟩
        split
        · intro hcontra
          exact absurd hcontra (by simp)
        · next hc => exact hc
      · intro hs
        simp at hs
      · exact fun _ => rfl
      · exact fun hne => absurd hn hne
  · have hres : ToolRegistry.execute req run =
        ⟨req.name, "", false, some "Unknown tool", some 0⟩ := by
      simp [ToolRegistry.execute, hn]
    rw [hres]
    refine ⟨?_, ?_, ?_, ?_⟩
    · intro hs
      simp at hs
    · exact fun _ => ⟨"Unknown tool", rfl⟩
    · exact fun hn2 => absurd hn2 hn
    · exact fun _ => rfl

theorem tool_result_population_witness :
    ((ToolRegistry.execute ⟨"python_code_executor", [], [], Option.none⟩
        ⟨"", 5, .ok []⟩).output ≠ "" ∧
      (ToolRegistry.execute ⟨"python_code_executor", [], [], Option.none⟩
        ⟨"", 5, .ok []⟩).error = Option.none) ∧
    ((ToolRegistry.execute ⟨"python_code_executor", [], [], Option.none⟩
        ⟨"", 5, .ok []⟩).duration_ms = some 5) ∧
    (ToolRegistry.execute ⟨"mystery", [], [], Option.none⟩ ⟨"", 5, .ok []⟩ =
      ⟨"mystery", "", false, some "Unknown tool", some 0⟩) :=
  ⟨(tool_result_population ⟨"python_code_executor", [], [], Option.none⟩
      ⟨"", 5, .ok []⟩).1 rfl,
    (tool_result_population ⟨"python_code_executor", [], [], Option.none⟩
      ⟨"", 5, .ok []⟩).2.2.1 rfl,
    (tool_result_population ⟨"mystery", [], [], Option.none⟩
      ⟨"", 5, .ok []⟩).2.2.2 (by decide)⟩

/-- C6 counterexample. Replacing `__builtins__` does not block attribute
access: the script `result = abs.__name__` performs reflection on an
allow-listed builtin and the sandbox executes it successfully
(`success = true`), where the claim demands every reflection attempt to
fail with `success = false`. -/
theorem sandbox_reflection_succeeds :
    RestrictedPythonExecutor.executeOn
      ⟨"python_code_executor",
        [Stmt.assign "result" (Expr.attr (Expr.name "abs") "__name__")], [],
        Option.none⟩ 1 =
      ⟨"python_code_executor", "\nresult = abs", true, Option.none,
        some 1⟩ :=
  rfl

/-- C6 (amended). Name-based capability restriction: the `exec` namespace
is seeded only with the caller-supplied variables, and a name resolves only
to one of them, to the `__builtins__` global (which the exec globals dict
binds to the allow-list dict itself), or to one of the nine allow-listed
builtins (first conjunct); an `import` statement fails because no
`__import__` hook exists, and referencing any other name (such as `open`,
`eval`, `__import__`) raises a `NameError` — in every such case the
executor returns `success = false` with the message captured, never an
unhandled fault (last conjunct: every script exception becomes a failure
result).  Attribute-based reflection on reachable values is not blocked
(see the counterexample). -/
theorem sandbox_name_capability_restriction :
    (∀ (ns : List (String × PyVal)) (x : String) (v : PyVal),
      lookupName ns x = .ok v →
      alookup ns x = some v ∨ (v = .builtin x ∧ x ∈ SAFE_BUILTINS) ∨
        (x = "__builtins__" ∧ v = builtinsDictVal)) ∧
    (∀ (nm m : String) (rest : List Stmt) (vars : List (String × PyVal))
      (rat : Option String) (e : Nat),
      RestrictedPythonExecutor.executeOn
        ⟨nm, Stmt.importStmt m :: rest, vars, rat⟩ e =
        ⟨nm, "", false, some "__import__ not found", some e⟩) ∧
    (∀ (nm x y : String) (rest : List Stmt) (vars : List (String × PyVal))
      (rat : Option String) (e : Nat),
      alookup vars x = Option.none → x ≠ "__builtins__" →
      x ∉ SAFE_BUILTINS →
      RestrictedPythonExecutor.executeOn
        ⟨nm, Stmt.assign y (Expr.name x) :: rest, vars, rat⟩ e =
        ⟨nm, "", false, some ("name '" ++ x ++ "' is not defined"),
          some e⟩) ∧
    (∀ (req : ToolExecutionRequest) (e : Nat) (msg : PyExc),
      runStmts req.code req.variables' = .error msg →
      RestrictedPythonExecutor.executeOn req e =
        ⟨req.name, "", false, some msg, some e⟩) := by
  have htrim : pyStrip "" = "" := rfl
  have hcap : ∀ (req : ToolExecutionRequest) (e : Nat) (msg : PyExc),
      runStmts req.code req.variables' = .error msg →
      RestrictedPythonExecutor.executeOn req e =
        ⟨req.name, "", false, some msg, some e⟩ := by
    intro req e msg h
    simp [RestrictedPythonExecutor.executeOn,
      RestrictedPythonExecutor.interpOutcome,
      RestrictedPythonExecutor.execute, h, htrim]
  refine ⟨?_, ?_, ?_, hcap⟩
  · intro ns x v h
    rw [lookupName] at h
    cases halo : alookup ns x with
    | some w =>
      rw [halo] at h
      cases h
      exact Or.inl rfl
    | none =>
      rw [halo] at h
      by_cases hb : x = "__builtins__"
      · rw [if_pos hb] at h
        cases h
        exact Or.inr (Or.inr ⟨hb, rfl⟩)
      · rw [if_neg hb] at h
        by_cases hmem : x ∈ SAFE_BUILTINS
        · rw [if_pos hmem] at h
          cases h
          exact Or.inr (Or.inl ⟨rfl, hmem⟩)
        · rw [if_neg hmem] at h
          cases h
  · intro nm m rest vars rat e
    exact hcap ⟨nm, Stmt.importStmt m :: rest, vars, rat⟩ e _ rfl
  · intro nm x y rest vars rat e h1 hb h2
    refine hcap ⟨nm, Stmt.assign y (Expr.name x) :: rest, vars, rat⟩ e _ ?_
    simp [runStmts, evalExpr, lookupName, h1, hb, h2, Bind.bind,
      Except.bind]

theorem sandbox_name_capability_restriction_witness :
    RestrictedPythonExecutor.executeOn
      ⟨"python_code_executor", [Stmt.importStmt "os"], [], Option.none⟩ 2 =
      ⟨"python_code_executor", "", false, some "__import__ not found",
        some 2⟩ ∧
    RestrictedPythonExecutor.executeOn
      ⟨"python_code_executor", [Stmt.assign "r" (Expr.name "open")], [],
        Option.none⟩ 2 =
      ⟨"python_code_executor", "", false,
        some ("name '" ++ "open" ++ "' is not defined"), some 2⟩ :=
  ⟨sandbox_name_capability_restriction.2.1 "python_code_executor" "os" []
      [] Option.none 2,
    sandbox_name_capability_restriction.2.2.1 "python_code_executor" "open"
      "r" [] [] Option.none 2 rfl (by decide) (by decide)⟩

/-- C5 (code bug). The message-submission flow can never produce a reply:
line 83 of routers/chat.py calls `knowledge_base.search(payload.content,
user_id=payload.user_id)`, but `KnowledgeBase.search` accepts only `query`
and `k`, so the keyword binding fails and every request to
`POST /chat/messages` ends in a `TypeError`, surfaced as a generic 500 —
for every environment, store state and payload (first conjunct), because
`user_id` is not among the method's parameters (second conjunct). -/
theorem post_message_always_raises_type_error (env : PostEnv)
    (avail : PostAvail) (st : ChatState) (payload : ChatRequest) :
    (post_message env avail st payload).1 = .error internalError ∧
    "user_id" ∉ knowledge_search_params := by
  constructor
  · simp [post_message, kwargsBind, knowledge_search_params,
      post_message_search_kwargs]
  · decide

/-- C2. Ownership isolation without mutation: when the persisted record
under `plan:plan_id` is a (truthy) dict owned by `A` and the caller claims
`B ≠ A`, `execute_plan` rejects with the 403 `Plan ownership mismatch`
detail and returns the state unchanged — in particular the plan record is
still present, as restated by the final conjunct. -/
theorem execute_plan_ownership_isolation (env : ExecEnv) (avail : ExecAvail)
    (st : ChatState) (plan_id A B : String)
    (entries : List (String × PyVal))
    (hget : (RedisStore.get_json freshStore avail.get_ok st.redis st.mem
      ("plan:" ++ plan_id)).val = some (.dict entries))
    (htruthy : entries ≠ [])
    (howner : alookup entries "user_id" = some (.str A))
    (hAB : B ≠ A) :
    execute_plan env avail st ⟨plan_id, B⟩ = (.error planForbidden, st) ∧
    (RedisStore.get_json freshStore avail.get_ok
      (execute_plan env avail st ⟨plan_id, B⟩).2.redis
      (execute_plan env avail st ⟨plan_id, B⟩).2.mem
      ("plan:" ++ plan_id)).val = some (.dict entries) := by
  have hne : A ≠ B := fun h => hAB h.symm
  have hmain : execute_plan env avail st ⟨plan_id, B⟩ =
      (.error planForbidden, st) := by
    simp only [execute_plan]
    rw [hget]
    simp [pyFalsy, htruthy, howner, hne]
  exact ⟨hmain, by rw [hmain]; exact hget⟩

/-- Concrete plan record for the execute witnesses: owner `alice`, an
empty-script `code` entry, one spare variable. -/
def witnessPlanRecord : PyVal :=
  .dict [
    ("plan", .dict [
      ("plan_id", .str "p1"), ("description", .str "демо"),
      ("variables", .dict [("code", .code []), ("x", .int 1)]),
      ("formulas", .list []),
      ("suggested_tool", .str "python_code_executor"),
      ("followups", .list []),
      ("original_message", .dict [("role", .str "user"),
        ("content", .str "посчитай"), ("metadata", .none)])]),
    ("user_id", .str "alice"),
    ("decision", .dict [("mode", .str "calculator")]),
    ("knowledge", .list [])]

def witnessState : ChatState :=
  { redis := ⟨[("plan:p1", witnessPlanRecord)], []⟩, mem := ⟨[], []⟩,
    conv := freshStore }

def witnessEnv : ExecEnv :=
  { draft_reply := .ok "ок", index_dialog_res := .ok true, elapsed_ms := 1 }

theorem execute_plan_ownership_isolation_witness :
    execute_plan witnessEnv ⟨true, true, true⟩ witnessState ⟨"p1", "bob"⟩ =
      (.error planForbidden, witnessState) ∧
    (RedisStore.get_json freshStore true
      (execute_plan witnessEnv ⟨true, true, true⟩ witnessState
        ⟨"p1", "bob"⟩).2.redis
      (execute_plan witnessEnv ⟨true, true, true⟩ witnessState
        ⟨"p1", "bob"⟩).2.mem
      ("plan:" ++ "p1")).val = some (.dict [
        ("plan", .dict [
          ("plan_id", .str "p1"), ("description", .str "демо"),
          ("variables", .dict [("code", .code []), ("x", .int 1)]),
          ("formulas", .list []),
          ("suggested_tool", .str "python_code_executor"),
          ("followups", .list []),
          ("original_message", .dict [("role", .str "user"),
            ("content", .str "посчитай"), ("metadata", .none)])]),
        ("user_id", .str "alice"),
        ("decision", .dict [("mode", .str "calculator")]),
        ("knowledge", .list [])]) :=
  execute_plan_ownership_isolation witnessEnv ⟨true, true, true⟩
    witnessState "p1" "alice" "bob" [
        ("plan", .dict [
          ("plan_id", .str "p1"), ("description", .str "демо"),
          ("variables", .dict [("code", .code []), ("x", .int 1)]),
          ("formulas", .list []),
          ("suggested_tool", .str "python_code_executor"),
          ("followups", .list []),
          ("original_message", .dict [("role", .str "user"),
            ("content", .str "посчитай"), ("metadata", .none)])]),
        ("user_id", .str "alice"),
        ("decision", .dict [("mode", .str "calculator")]),
        ("knowledge", .list [])]
    rfl (by simp) rfl (by decide)

/-- Appending to a dialog list never touches the string-valued keys of
either backend. -/
theorem push_dialog_json_frame (h : Handle) (ok : Bool) (rs ms : KVState)
    (uid : String) (v : PyVal) :
    (RedisStore.push_dialog h ok rs ms uid v).redis.json_map = rs.json_map ∧
    (RedisStore.push_dialog h ok rs ms uid v).mem.json_map = ms.json_map := by
  rw [RedisStore.push_dialog]
  split
  · split <;> simp
  · simp

/-- A rejected or failed `execute_plan` call leaves the string-valued keys
of both backends exactly as they were: deletion happens only on the path
that has already produced an execution result. -/
theorem execute_plan_error_frame (env : ExecEnv) (avail : ExecAvail)
    (st : ChatState) (req : CalculatorExecutionRequest)
    (e : HTTPExceptionModel) (st' : ChatState)
    (h : execute_plan env avail st req = (.error e, st')) :
    st'.redis.json_map = st.redis.json_map ∧
    st'.mem.json_map = st.mem.json_map := by
  simp only [execute_plan] at h
  repeat' split at h
  all_goals rw [Prod.ext_iff] at h
  all_goals obtain ⟨h1, h2⟩ := h
  all_goals dsimp only at h1 h2
  all_goals first
    | exact absurd h1 (fun hx => Except.noConfusion hx)
    | (rw [← h2]; exact ⟨rfl, rfl⟩)
    | (rw [← h2]
       exact ⟨(push_dialog_json_frame _ _ _ _ _ _).1,
         (push_dialog_json_frame _ _ _ _ _ _).2⟩)

/-- A successful `execute_plan` call returns exactly one tool execution
result in the response. -/
theorem execute_plan_ok_tool_results (env : ExecEnv) (avail : ExecAvail)
    (st : ChatState) (req : CalculatorExecutionRequest)
    (resp : ChatResponse) (st' : ChatState)
    (h : execute_plan env avail st req = (.ok resp, st')) :
    ∃ r, resp.tool_results = [r] := by
  simp only [execute_plan] at h
  repeat' split at h
  all_goals rw [Prod.ext_iff] at h
  all_goals obtain ⟨h1, h2⟩ := h
  all_goals dsimp only at h1 h2
  all_goals first
    | exact absurd h1 (fun hx => Except.noConfusion hx)
    | (rw [Except.ok.injEq] at h1
       exact ⟨_, by rw [← h1]⟩)

/-- When the durable store serves every operation, a successful call has
removed the plan key from the durable backend. -/
theorem execute_plan_ok_redis_removed (env : ExecEnv) (st : ChatState)
    (req : CalculatorExecutionRequest) (resp : ChatResponse)
    (st' : ChatState)
    (h : execute_plan env ⟨true, true, true⟩ st req = (.ok resp, st')) :
    st'.redis.json_map =
      aremove st.redis.json_map ("plan:" ++ req.plan_id) := by
  simp only [execute_plan, RedisStore.get_json, RedisStore.delete,
    freshStore, can_use_redis, Bool.not_false, if_true] at h
  repeat' split at h
  all_goals rw [Prod.ext_iff] at h
  all_goals obtain ⟨h1, h2⟩ := h
  all_goals dsimp only at h1 h2
  all_goals first
    | exact absurd h1 (fun hx => Except.noConfusion hx)
    | (rw [← h2]
       exact congrArg (fun m => aremove m ("plan:" ++ req.plan_id))
         (push_dialog_json_frame _ _ _ _ _ _).1)

/-- When the durable store refuses every operation, a successful call has
removed the plan key from the in-memory fallback. -/
theorem execute_plan_ok_mem_removed (env : ExecEnv) (st : ChatState)
    (req : CalculatorExecutionRequest) (resp : ChatResponse)
    (st' : ChatState)
    (h : execute_plan env ⟨false, false, false⟩ st req = (.ok resp, st')) :
    st'.mem.json_map =
      aremove st.mem.json_map ("plan:" ++ req.plan_id) := by
  simp only [execute_plan] at h
  rw [show RedisStore.get_json freshStore false st.redis st.mem
        ("plan:" ++ req.plan_id) =
      ⟨alookup st.mem.json_map ("plan:" ++ req.plan_id), ⟨true⟩, st.redis,
        st.mem⟩ from by
    simp [RedisStore.get_json, freshStore, can_use_redis,
      mark_unavailable]] at h
  simp only [RedisStore.delete, can_use_redis, Bool.not_true,
    Bool.false_eq_true, if_false] at h
  repeat' split at h
  all_goals rw [Prod.ext_iff] at h
  all_goals obtain ⟨h1, h2⟩ := h
  all_goals dsimp only at h1 h2
  all_goals first
    | exact absurd h1 (fun hx => Except.noConfusion hx)
    | (rw [← h2]
       exact congrArg (fun m => aremove m ("plan:" ++ req.plan_id))
         (push_dialog_json_frame _ _ _ _ _ _).2)

/-- With the durable store serving, an absent plan key means 404. -/
theorem execute_plan_404_redis (env : ExecEnv) (st : ChatState)
    (req : CalculatorExecutionRequest)
    (hval : alookup st.redis.json_map ("plan:" ++ req.plan_id) =
      Option.none) :
    (execute_plan env ⟨true, true, true⟩ st req).1 =
      .error planNotFound := by
  simp [execute_plan, RedisStore.get_json, freshStore, can_use_redis, hval]

/-- With the durable store refusing, an absent in-memory plan key means
404. -/
theorem execute_plan_404_mem (env : ExecEnv) (st : ChatState)
    (req : CalculatorExecutionRequest)
    (hval : alookup st.mem.json_map ("plan:" ++ req.plan_id) =
      Option.none) :
    (execute_plan env ⟨false, false, false⟩ st req).1 =
      .error planNotFound := by
  simp [execute_plan, RedisStore.get_json, freshStore, can_use_redis, hval]

/-- C1 (amended). At-most-once execution under consistent store
availability: when the durable store serves every operation of both calls
(or refuses every operation of both, so everything runs on the in-memory
fallback), a first successful `execute_plan` leaves the plan key absent
from the backend in use and makes any second call with the same `plan_id`
fail with the 404 `Plan expired or not found` rejection.  Unconditionally,
the plan key is deleted only after an execution result has been produced:
every rejected or failed call leaves the plan mappings of both backends
unchanged, and every successful response carries the execution result. -/
theorem execute_plan_at_most_once (env env2 : ExecEnv) (st : ChatState)
    (req : CalculatorExecutionRequest) :
    (((execute_plan env ⟨true, true, true⟩ st req).1.isOk = true) →
      alookup (execute_plan env ⟨true, true, true⟩ st req).2.redis.json_map
        ("plan:" ++ req.plan_id) = Option.none ∧
      (execute_plan env2 ⟨true, true, true⟩
        (execute_plan env ⟨true, true, true⟩ st req).2 req).1 =
        .error planNotFound) ∧
    (((execute_plan env ⟨false, false, false⟩ st req).1.isOk = true) →
      alookup (execute_plan env ⟨false, false, false⟩ st req).2.mem.json_map
        ("plan:" ++ req.plan_id) = Option.none ∧
      (execute_plan env2 ⟨false, false, false⟩
        (execute_plan env ⟨false, false, false⟩ st req).2 req).1 =
        .error planNotFound) ∧
    (∀ (avail : ExecAvail) (e : HTTPExceptionModel) (st' : ChatState),
      execute_plan env avail st req = (.error e, st') →
      st'.redis.json_map = st.redis.json_map ∧
      st'.mem.json_map = st.mem.json_map) ∧
    (∀ (avail : ExecAvail) (resp : ChatResponse) (st' : ChatState),
      execute_plan env avail st req = (.ok resp, st') →
      ∃ r, resp.tool_results = [r]) := by
  refine ⟨?_, ?_, ?_, ?_⟩
  · intro hok
    rcases heq : execute_plan env ⟨true, true, true⟩ st req with ⟨out, st'⟩
    cases out with
    | error e => rw [heq] at hok; simp [Except.isOk, Except.toBool] at hok
    | ok resp =>
      dsimp only
      have hrm := execute_plan_ok_redis_removed env st req resp st' heq
      have habs : alookup st'.redis.json_map ("plan:" ++ req.plan_id) =
          Option.none := by
        rw [hrm]; exact alookup_aremove_self _ _
      exact ⟨habs, execute_plan_404_redis env2 st' req habs⟩
  · intro hok
    rcases heq : execute_plan env ⟨false, false, false⟩ st req with ⟨out, st'⟩
    cases out with
    | error e => rw [heq] at hok; simp [Except.isOk, Except.toBool] at hok
    | ok resp =>
      dsimp only
      have hrm := execute_plan_ok_mem_removed env st req resp st' heq
      have habs : alookup st'.mem.json_map ("plan:" ++ req.plan_id) =
          Option.none := by
        rw [hrm]; exact alookup_aremove_self _ _
      exact ⟨habs, execute_plan_404_mem env2 st' req habs⟩
  · exact fun avail e st' h => execute_plan_error_frame env avail st req e
      st' h
  · exact fun avail resp st' h => execute_plan_ok_tool_results env avail st
      req resp st' h

theorem execute_plan_at_most_once_witness :
    alookup (execute_plan witnessEnv ⟨true, true, true⟩ witnessState
        ⟨"p1", "alice"⟩).2.redis.json_map ("plan:" ++ "p1") = Option.none ∧
    (execute_plan witnessEnv ⟨true, true, true⟩
      (execute_plan witnessEnv ⟨true, true, true⟩ witnessState
        ⟨"p1", "alice"⟩).2 ⟨"p1", "alice"⟩).1 = .error planNotFound :=
  (execute_plan_at_most_once witnessEnv witnessEnv witnessState
    ⟨"p1", "alice"⟩).1 rfl

/-- C1 counterexample. The claim as stated fails when the durable store
fails exactly at the deletion step and serves a later request again: the
first call completes successfully (the swallowed Redis error only degrades
the request-local store instance, which is then discarded), the plan record
survives in the durable store, and a second `execute` call — handed a fresh
store instance by `get_store` — finds the record and executes the plan a
second time instead of failing with `not found`. -/
theorem execute_plan_second_execute_after_failed_delete :
    (execute_plan witnessEnv ⟨true, true, false⟩ witnessState
      ⟨"p1", "alice"⟩).1.isOk = true ∧
    (execute_plan witnessEnv ⟨true, true, true⟩
      (execute_plan witnessEnv ⟨true, true, false⟩ witnessState
        ⟨"p1", "alice"⟩).2 ⟨"p1", "alice"⟩).1.isOk = true :=
  ⟨rfl, rfl⟩

end AlfaPilot
